import Mathlib

/-!
Verification of the Gigi Personal Growth Coach core (`src/core.py`).

This file gives a shallow embedding of the data model and the operations of
the coaching pipeline: the security manager (symmetric encryption and the
session → user resolution), the memory manager (encrypted session and goal
rows in the relational store), the rate-limited / retrying AI-service
wrapper, the robust JSON parsing of the structured goal output, and the
LangGraph workflow (stage nodes plus the conditional routers), together with
theorems settling the stated properties.

Modelling conventions:
* Machine time (`time.time()`, `datetime.utcnow()`) is an integer clock in
  tenths of a second threaded through a `World` record (so the source's
  4.5-second pacing interval is the integer 45, and the 10 s / 5 s backoff
  bases are 100 / 50); `asyncio.sleep d` advances the clock by `d` and is
  the only place where time passes.
* The Fernet cipher from the external `cryptography` package is modelled by
  its contract: authenticated symmetric encryption under the single
  process-wide key; decryption under a different key fails.  JSON
  serialisation composed with encryption is absorbed into an `Encrypted α`
  payload wrapper.
* The external Gemini generation call is an oracle
  `gen : String → Except String String` (prompt in, completion text or a
  classified exception message out).
* The ChromaDB vector index is omitted: it is write-only in the code paths
  under verification and none of the claims observe it.
* `generate_internal_id` (timestamp + counter + random token, encrypted and
  truncated) is modelled as a deterministic fresh name drawn from the
  in-process counter; only freshness/equality of ids is observable here.
-/

namespace Gigi

/-- Model of the Fernet symmetric cipher used by `SecurityManager`
(`src/core.py` lines 74-96): a ciphertext is the payload tagged with the key
it was produced under; decryption checks the key and fails (the library
raises `InvalidToken`) on a mismatch.  The payload type is generic so that
the JSON-serialise-then-encrypt composition used for session and goal rows
is captured by the same model. -/
structure Encrypted (α : Type) where
  key : Nat
  payload : α
deriving Repr, DecidableEq

/-- The single process-wide key `Config.ENCRYPTION_KEY` (`src/core.py` line 68). -/
def encryptionKey : Nat := 2024

namespace SecurityManager

/-- `SecurityManager.encrypt_data` (`src/core.py` lines 88-89):
`self.cipher.encrypt(data.encode()).decode()` under the process-wide key. -/
def encrypt_data {α : Type} (data : α) : Encrypted α :=
  ⟨encryptionKey, data⟩

/-- `SecurityManager.decrypt_data` (`src/core.py` lines 91-92):
`self.cipher.decrypt(encrypted_data.encode()).decode()`; `none` models the
`InvalidToken` exception raised for a ciphertext under a different key. -/
def decrypt_data {α : Type} (e : Encrypted α) : Option α :=
  if e.key = encryptionKey then some e.payload else none

end SecurityManager

/-! ## JSON values and the `json.loads` model

`LangGraphAIService._parse_json_safe` (`src/core.py` lines 567-589) parses
generation output with Python's `json.loads`.  The value type and a
recursive-descent parser for the `json` module's grammar are embedded below.
Numbers are kept as their source lexeme (no claim observes numeric
equality), `NaN` / `Infinity` / `-Infinity` are accepted as Python's decoder
does, and the `\uXXXX` escape maps the code unit directly (surrogate-pair
recombination is not modelled). -/

/-- JSON values as produced by `json.loads`. -/
inductive Json where
  | null : Json
  | bool (b : Bool) : Json
  | num (lexeme : String) : Json
  | str (s : String) : Json
  | arr (elems : List Json) : Json
  | obj (fields : List (String × Json)) : Json

/-- The opening-brace character, written via its code point. -/
def lbrace : Char := Char.ofNat 123

/-- The closing-brace character, written via its code point. -/
def rbrace : Char := Char.ofNat 125

/-- JSON insignificant whitespace. -/
def isJsonWs (c : Char) : Bool :=
  c = ' ' || c = '\t' || c = '\n' || c = '\r'

/-- Drop leading JSON whitespace. -/
def skipWs : List Char → List Char
  | [] => []
  | c :: t => if isJsonWs c then skipWs t else c :: t

/-- Value of one hexadecimal digit. -/
def hexVal (c : Char) : Option Nat :=
  if c.isDigit then some (c.toNat - 48)
  else if 'a' ≤ c && c ≤ 'f' then some (c.toNat - 87)
  else if 'A' ≤ c && c ≤ 'F' then some (c.toNat - 55)
  else none

/-- Body of a JSON string literal (after the opening quote); handles the
escape sequences of the `json` grammar and rejects raw control characters. -/
def parseStringAux : Nat → List Char → List Char → Option (String × List Char)
  | 0, _, _ => none
  | fuel + 1, acc, cs =>
    match cs with
    | [] => none
    | c :: t =>
      if c = '"' then some (String.mk acc.reverse, t)
      else if c = '\\' then
        match t with
        | [] => none
        | e :: t2 =>
          if e = '"' || e = '\\' || e = '/' then parseStringAux fuel (e :: acc) t2
          else if e = 'b' then parseStringAux fuel (Char.ofNat 8 :: acc) t2
          else if e = 'f' then parseStringAux fuel (Char.ofNat 12 :: acc) t2
          else if e = 'n' then parseStringAux fuel ('\n' :: acc) t2
          else if e = 'r' then parseStringAux fuel ('\r' :: acc) t2
          else if e = 't' then parseStringAux fuel ('\t' :: acc) t2
          else if e = 'u' then
            match t2 with
            | h1 :: h2 :: h3 :: h4 :: t3 =>
              match hexVal h1, hexVal h2, hexVal h3, hexVal h4 with
              | some a, some b, some c2, some d =>
                parseStringAux fuel (Char.ofNat (((a * 16 + b) * 16 + c2) * 16 + d) :: acc) t3
              | _, _, _, _ => none
            | _ => none
          else none
      else if c.toNat < 32 then none
      else parseStringAux fuel (c :: acc) t

/-- Longest leading run of decimal digits. -/
def takeDigits : List Char → List Char × List Char
  | [] => ([], [])
  | c :: t =>
    if c.isDigit then
      let (ds, r) := takeDigits t
      (c :: ds, r)
    else ([], c :: t)

/-- Integer part of a JSON number: `0`, or a nonzero digit followed by digits. -/
def parseIntPart : List Char → Option (List Char × List Char)
  | [] => none
  | c :: t =>
    if c = '0' then some ([c], t)
    else if c.isDigit then
      let (ds, r) := takeDigits t
      some (c :: ds, r)
    else none

/-- Optional fraction part `.digits`. -/
def parseFracPart : List Char → Option (List Char × List Char)
  | c :: t =>
    if c = '.' then
      match takeDigits t with
      | ([], _) => none
      | (ds, r) => some (c :: ds, r)
    else some ([], c :: t)
  | [] => some ([], [])

/-- Optional exponent part `e[+-]digits`. -/
def parseExpPart : List Char → Option (List Char × List Char)
  | c :: t =>
    if c = 'e' || c = 'E' then
      let (sgn, t2) : List Char × List Char :=
        match t with
        | d :: t2 => if d = '+' || d = '-' then ([d], t2) else ([], d :: t2)
        | [] => ([], [])
      match takeDigits t2 with
      | ([], _) => none
      | (ds, r) => some (c :: (sgn ++ ds), r)
    else some ([], c :: t)
  | [] => some ([], [])

/-- Lexeme of a JSON number (sign, integer, fraction, exponent). -/
def parseNumLex (cs : List Char) : Option (List Char × List Char) :=
  let (sgn, cs1) : List Char × List Char :=
    match cs with
    | '-' :: t => (['-'], t)
    | _ => ([], cs)
  match parseIntPart cs1 with
  | none => none
  | some (ip, r1) =>
    match parseFracPart r1 with
    | none => none
    | some (fp, r2) =>
      match parseExpPart r2 with
      | none => none
      | some (ep, r3) => some (sgn ++ ip ++ fp ++ ep, r3)

/-- Match a literal keyword tail and return the remaining input. -/
def matchLit (lit : List Char) (cs : List Char) : Option (List Char) :=
  if lit.isPrefixOf cs then some (cs.drop lit.length) else none

mutual

/-- One JSON value (leading whitespace allowed), fuel-bounded. -/
def parseValue : Nat → List Char → Option (Json × List Char)
  | 0, _ => none
  | fuel + 1, cs =>
    match skipWs cs with
    | [] => none
    | c :: t =>
      if c = '"' then (parseStringAux fuel [] t).map (fun p => (Json.str p.1, p.2))
      else if c = lbrace then
        match skipWs t with
        | [] => none
        | d :: t2 =>
          if d = rbrace then some (Json.obj [], t2)
          else (parseMembers fuel (d :: t2)).map (fun p => (Json.obj p.1, p.2))
      else if c = '[' then
        match skipWs t with
        | [] => none
        | d :: t2 =>
          if d = ']' then some (Json.arr [], t2)
          else (parseElems fuel (d :: t2)).map (fun p => (Json.arr p.1, p.2))
      else if c = 't' then (matchLit ['r', 'u', 'e'] t).map (fun r => (Json.bool true, r))
      else if c = 'f' then (matchLit ['a', 'l', 's', 'e'] t).map (fun r => (Json.bool false, r))
      else if c = 'n' then (matchLit ['u', 'l', 'l'] t).map (fun r => (Json.null, r))
      else if c = 'N' then (matchLit ['a', 'N'] t).map (fun r => (Json.num "NaN", r))
      else if c = 'I' then
        (matchLit ['n', 'f', 'i', 'n', 'i', 't', 'y'] t).map (fun r => (Json.num "Infinity", r))
      else if c = '-' && (match t with | 'I' :: _ => true | _ => false) then
        (matchLit ['I', 'n', 'f', 'i', 'n', 'i', 't', 'y'] t).map
          (fun r => (Json.num "-Infinity", r))
      else if c = '-' || c.isDigit then
        (parseNumLex (c :: t)).map (fun p => (Json.num (String.mk p.1), p.2))
      else none

/-- Comma-separated array elements up to the closing bracket. -/
def parseElems : Nat → List Char → Option (List Json × List Char)
  | 0, _ => none
  | fuel + 1, cs =>
    match parseValue fuel cs with
    | none => none
    | some (v, rest) =>
      match skipWs rest with
      | [] => none
      | c :: t =>
        if c = ',' then (parseElems fuel t).map (fun p => (v :: p.1, p.2))
        else if c = ']' then some ([v], t)
        else none

/-- Comma-separated object members up to the closing brace. -/
def parseMembers : Nat → List Char → Option (List (String × Json) × List Char)
  | 0, _ => none
  | fuel + 1, cs =>
    match skipWs cs with
    | [] => none
    | c :: t =>
      if c = '"' then
        match parseStringAux fuel [] t with
        | none => none
        | some (k, rest) =>
          match skipWs rest with
          | ':' :: t2 =>
            match parseValue fuel t2 with
            | none => none
            | some (v, rest2) =>
              match skipWs rest2 with
              | [] => none
              | d :: t3 =>
                if d = ',' then (parseMembers fuel t3).map (fun p => ((k, v) :: p.1, p.2))
                else if d = rbrace then some ([(k, v)], t3)
                else none
          | _ => none
      else none

end

/-- Model of Python's `json.loads`: parse one value, then require only
trailing whitespace.  The fuel is sized past any possible descent depth of
the input. -/
def json_loads (s : String) : Option Json :=
  match parseValue (2 * s.length + 8) s.toList with
  | some (v, rest) => if (skipWs rest).isEmpty then some v else none
  | none => none

/-- Python `str.find(ch)`: index of the first occurrence, if any. -/
def findIdx (c : Char) : List Char → Option Nat
  | [] => none
  | d :: t => if d = c then some 0 else (findIdx c t).map (· + 1)

/-- Python `str.rfind(ch)`: index of the last occurrence, if any. -/
def rfindIdx (c : Char) : List Char → Option Nat
  | [] => none
  | d :: t =>
    match rfindIdx c t with
    | some i => some (i + 1)
    | none => if d = c then some 0 else none

/-- The brace-extraction step of `_parse_json_safe` (`src/core.py` lines
572-577): `start = text.find(lbrace)`, `end = text.rfind(rbrace) + 1`, and
the slice `text[start:end]` when `start != -1 and end > start` (a missing
closing brace gives `end = 0`, which can never exceed a found `start`). -/
def extract_braced (text : String) : Option String :=
  let cs := text.toList
  match findIdx lbrace cs, rfindIdx rbrace cs with
  | some s, some e =>
    if e + 1 > s then some (String.mk ((cs.drop s).take (e + 1 - s))) else none
  | _, _ => none

/-- The fixed default goal object returned by `_parse_json_safe`
(`src/core.py` lines 582-589). -/
def fallbackGoalJson : Json :=
  Json.obj
    [("primary_goal", Json.str "Personal growth and wellness"),
     ("domains", Json.arr [Json.str "lifestyle"]),
     ("timeframe", Json.str "4 weeks"),
     ("desired_outcomes", Json.arr [Json.str "Improved well-being"]),
     ("difficulty_level", Json.str "beginner"),
     ("motivation_score", Json.num "5")]

/-- `LangGraphAIService._parse_json_safe` (`src/core.py` lines 567-589):
direct parse, then parse of the brace-extracted slice, then the fixed
default object.  Total — the fallback never throws. -/
def parse_json_safe (text : String) : Json :=
  match json_loads text with
  | some j => j
  | none =>
    match extract_braced text with
    | some sub =>
      match json_loads sub with
      | some j => j
      | none => fallbackGoalJson
    | none => fallbackGoalJson

/-- Key lookup in a parsed JSON object, last occurrence winning as in a
Python dict built by the decoder. -/
def objGet (fields : List (String × Json)) (k : String) : Option Json :=
  (fields.reverse.find? (fun p => p.1 == k)).map (fun p => p.2)

/-- Field access on a JSON value; non-objects have no fields (Python raises
`TypeError`/`KeyError` there). -/
def jsonField : Json → String → Option Json
  | Json.obj fs, k => objGet fs k
  | _, _ => none

/-- C5: Fallback parsing — for any input string that `json.loads` rejects
both directly and after extracting the first-brace/last-brace slice, the
structured-output parser returns (without throwing — it is total) the fixed
default goal object, whose `domains` is `["lifestyle"]` and whose
`timeframe` is `"4 weeks"`. -/
theorem c5_fallback_parsing (text : String)
    (h1 : json_loads text = none)
    (h2 : ∀ sub, extract_braced text = some sub → json_loads sub = none) :
    parse_json_safe text = fallbackGoalJson ∧
    jsonField (parse_json_safe text) "domains" = some (Json.arr [Json.str "lifestyle"]) ∧
    jsonField (parse_json_safe text) "timeframe" = some (Json.str "4 weeks") := by
  have hmain : parse_json_safe text = fallbackGoalJson := by
    cases hex : extract_braced text with
    | none => simp [parse_json_safe, h1, hex]
    | some sub => simp [parse_json_safe, h1, hex, h2 sub hex]
  refine ⟨hmain, ?_, ?_⟩ <;> rw [hmain] <;> rfl

/-- Witness for C5 at the spec's concrete input `"not json at all"`. -/
theorem c5_fallback_parsing_witness :
    parse_json_safe "not json at all" = fallbackGoalJson ∧
    jsonField (parse_json_safe "not json at all") "domains" =
      some (Json.arr [Json.str "lifestyle"]) ∧
    jsonField (parse_json_safe "not json at all") "timeframe" =
      some (Json.str "4 weeks") :=
  c5_fallback_parsing "not json at all" (by rfl)
    (by
      intro sub h
      have hnone : extract_braced "not json at all" = none := by rfl
      rw [hnone] at h
      exact Option.noConfusion h)

/-! ## The resilient invocation wrapper (`LangGraphAIService`)

`_rate_limit_check` and `_make_api_call_with_retry` (`src/core.py` lines
446-497).  Time is a rational clock; `await asyncio.sleep d` advances it by
`d`.  The external `model.generate_content` call is an oracle
`gen : String → Except String String` whose `Except.error` carries the
exception's description (`str(e)`). -/

/-- Lower-casing as in Python's `str.lower()` (the strings classified here
are ASCII). -/
def lowerStr (s : String) : String :=
  String.mk (s.toList.map Char.toLower)

/-- Substring test on character lists (Python's `needle in hay`). -/
def listHasSegment (needle : List Char) : List Char → Bool
  | [] => needle.isEmpty
  | c :: t => needle.isPrefixOf (c :: t) || listHasSegment needle t

/-- Python's `needle in hay` on strings. -/
def strHasSegment (hay needle : String) : Bool :=
  listHasSegment needle.toList hay.toList

/-- Message of the exception raised by the daily-quota admission check
(`src/core.py` line 458). -/
def dailyLimitMsg : String :=
  "Daily API limit reached. Please try again tomorrow or upgrade to paid tier."

/-- Degraded-service text returned when the rate/quota retry budget is
exhausted (`src/core.py` line 484). -/
def highDemandMsg : String :=
  "I'm experiencing high demand right now. Please try again in a few minutes, or let me give you a general wellness tip instead!"

/-- Degraded-service text returned when the transient-server retry budget is
exhausted (`src/core.py` line 490). -/
def techDifficultyMsg : String :=
  "I'm having technical difficulties. Here's a quick tip: Start with small, achievable goals and build momentum!"

/-- Text returned for an unknown-class failure, which is not retried
(`src/core.py` line 495). -/
def unexpectedIssueMsg : String :=
  "I encountered an unexpected issue. Please try rephrasing your request."

/-- Text returned if the attempt loop falls through (`src/core.py` line 497). -/
def unavailableMsg : String :=
  "I'm temporarily unavailable. Please try again later!"

/-- The minimum pacing interval, `4.5` seconds (`src/core.py` line 462). -/
def minInterval : Int := 45

/-- The daily request ceiling, 45 (`src/core.py` line 457). -/
def dailyCeiling : Nat := 45

/-- Process-wide counters of `LangGraphAIService.__init__`
(`src/core.py` lines 441-444); `last_reset_time` is the date as a day
number. -/
structure AIState where
  last_request_time : Int
  request_count : Nat
  daily_request_count : Nat
  last_reset_time : Int
deriving Repr, DecidableEq

namespace LangGraphAIService

/-- Date-rollover reset at the top of `_rate_limit_check`
(`src/core.py` lines 451-454). -/
def resetDaily (st : AIState) (today : Int) : AIState :=
  if st.last_reset_time < today then
    { st with daily_request_count := 0, last_reset_time := today }
  else st

/-- The pacing step of `_rate_limit_check` (`src/core.py` lines 460-465):
if less than the minimum interval has elapsed since the last call,
`asyncio.sleep` the difference (the clock advances by the wait), else
proceed at once.  The result is the clock value after the cooperative
suspension. -/
def paceClock (st : AIState) (clock : Int) : Int :=
  if clock - st.last_request_time < minInterval then
    clock + (minInterval - (clock - st.last_request_time))
  else clock

/-- `LangGraphAIService._rate_limit_check` (`src/core.py` lines 446-469):
reset the daily counter on date rollover; fail with the daily-limit
exception at the ceiling; otherwise sleep until the minimum interval since
the previous call has elapsed, stamp the call time and bump the counters.
The returned clock is the time at which the external attempt begins. -/
def rate_limit_check (st : AIState) (clock : Int) (today : Int) :
    Except String (AIState × Int) :=
  if dailyCeiling ≤ (resetDaily st today).daily_request_count then
    Except.error dailyLimitMsg
  else
    Except.ok
      ({ resetDaily st today with
          last_request_time := paceClock (resetDaily st today) clock,
          request_count := (resetDaily st today).request_count + 1,
          daily_request_count := (resetDaily st today).daily_request_count + 1 },
        paceClock (resetDaily st today) clock)

/-- Observable outcome of one `_make_api_call_with_retry` invocation:
the returned text, how many times the external generation call was
attempted, how many loop iterations ran, and the final counters/clock. -/
structure CallOutcome where
  result : String
  genAttempts : Nat
  iterations : Nat
  state : AIState
  clock : Int
deriving Repr, DecidableEq

/-- The attempt loop of `_make_api_call_with_retry` (`src/core.py` lines
471-497).  `fuel` is the number of remaining iterations of
`for attempt in range(max_retries)` and `attempt` the current index; `g`
accumulates the external attempts made so far.  An exception from the rate
check or from the external call is classified by its lower-cased
description: rate/quota and transient-server classes back off and retry
(returning the class-specific degraded text on the last attempt), anything
else returns the unexpected-issue text at once. -/
def apiLoop (gen : String → Except String String) (prompt : String)
    (maxRetries : Nat) (today : Int) :
    Nat → Nat → AIState → Int → Nat → CallOutcome
  | 0, attempt, st, clock, g => ⟨unavailableMsg, g, attempt, st, clock⟩
  | fuel + 1, attempt, st, clock, g =>
    let outcome : Except (String × AIState × Int × Nat) (String × AIState × Int) :=
      match rate_limit_check st clock today with
      | Except.error e => Except.error (e, st, clock, g)
      | Except.ok (st2, clock2) =>
        match gen prompt with
        | Except.ok t => Except.ok (t, st2, clock2)
        | Except.error e => Except.error (e, st2, clock2, g + 1)
    match outcome with
    | Except.ok (t, st2, clock2) => ⟨t, g + 1, attempt + 1, st2, clock2⟩
    | Except.error (e, st2, clock2, g2) =>
      let es := lowerStr e
      if strHasSegment es "429" || strHasSegment es "quota" || strHasSegment es "rate limit" then
        if attempt = maxRetries - 1 then ⟨highDemandMsg, g2, attempt + 1, st2, clock2⟩
        else apiLoop gen prompt maxRetries today fuel (attempt + 1) st2
          (clock2 + (2 : Int) ^ attempt * 100) g2
      else if strHasSegment es "500" || strHasSegment es "503" then
        if attempt = maxRetries - 1 then ⟨techDifficultyMsg, g2, attempt + 1, st2, clock2⟩
        else apiLoop gen prompt maxRetries today fuel (attempt + 1) st2
          (clock2 + (2 : Int) ^ attempt * 50) g2
      else ⟨unexpectedIssueMsg, g2, attempt + 1, st2, clock2⟩

/-- `LangGraphAIService._make_api_call_with_retry` (`src/core.py` lines
471-497) with its default attempt budget shape: run the loop from attempt
0 with `max_retries` iterations available. -/
def make_api_call_with_retry (gen : String → Except String String)
    (prompt : String) (maxRetries : Nat) (st : AIState) (clock : Int)
    (today : Int) : CallOutcome :=
  apiLoop gen prompt maxRetries today maxRetries 0 st clock 0

end LangGraphAIService

/-- Helper: when the iteration's failure description is classified as
neither rate/quota nor transient-server, the loop returns the
unexpected-issue text at once — the failure is not retried.  Case of a
failure raised by the rate check itself. -/
theorem apiLoop_rlcError_unknown (gen : String → Except String String)
    (prompt : String) (maxRetries : Nat) (today : Int) (fuel attempt : Nat)
    (st : AIState) (clock : Int) (g : Nat) (e : String)
    (hrlc : LangGraphAIService.rate_limit_check st clock today = Except.error e)
    (hc1 : (strHasSegment (lowerStr e) "429" || strHasSegment (lowerStr e) "quota" ||
        strHasSegment (lowerStr e) "rate limit") = false)
    (hc2 : (strHasSegment (lowerStr e) "500" || strHasSegment (lowerStr e) "503") = false) :
    LangGraphAIService.apiLoop gen prompt maxRetries today (fuel + 1) attempt st clock g =
      ⟨unexpectedIssueMsg, g, attempt + 1, st, clock⟩ := by
  simp only [LangGraphAIService.apiLoop, hrlc, hc1, hc2, Bool.false_eq_true, if_false]

/-- Helper: same classification fact for a failure raised by the external
generation call after a successful rate check. -/
theorem apiLoop_genError_unknown (gen : String → Except String String)
    (prompt : String) (maxRetries : Nat) (today : Int) (fuel attempt : Nat)
    (st st2 : AIState) (clock clock2 : Int) (g : Nat) (e : String)
    (hrlc : LangGraphAIService.rate_limit_check st clock today = Except.ok (st2, clock2))
    (hgen : gen prompt = Except.error e)
    (hc1 : (strHasSegment (lowerStr e) "429" || strHasSegment (lowerStr e) "quota" ||
        strHasSegment (lowerStr e) "rate limit") = false)
    (hc2 : (strHasSegment (lowerStr e) "500" || strHasSegment (lowerStr e) "503") = false) :
    LangGraphAIService.apiLoop gen prompt maxRetries today (fuel + 1) attempt st clock g =
      ⟨unexpectedIssueMsg, g + 1, attempt + 1, st2, clock2⟩ := by
  simp only [LangGraphAIService.apiLoop, hrlc, hgen, hc1, hc2, Bool.false_eq_true, if_false]

/-- C2: Quota ceiling — with the daily counter at or above the ceiling and
no date rollover, the admission check fails immediately with the
daily-quota exception, and the wrapper invocation performs zero external
generation attempts and runs exactly one loop iteration (no retry),
returning a degraded message.  (The quota exception's description matches
none of the retry keywords, so the wrapper surfaces it on the unknown-class
no-retry path.) -/
theorem c2_quota_ceiling (st : AIState) (clock : Int) (today : Int)
    (gen : String → Except String String) (prompt : String)
    (hroll : ¬ st.last_reset_time < today)
    (hq : dailyCeiling ≤ st.daily_request_count) :
    LangGraphAIService.rate_limit_check st clock today = Except.error dailyLimitMsg ∧
    (LangGraphAIService.make_api_call_with_retry gen prompt 3 st clock today).result =
      unexpectedIssueMsg ∧
    (LangGraphAIService.make_api_call_with_retry gen prompt 3 st clock today).genAttempts = 0 ∧
    (LangGraphAIService.make_api_call_with_retry gen prompt 3 st clock today).iterations = 1 := by
  have hreset : LangGraphAIService.resetDaily st today = st := by
    unfold LangGraphAIService.resetDaily
    rw [if_neg hroll]
  have h1 : LangGraphAIService.rate_limit_check st clock today = Except.error dailyLimitMsg := by
    unfold LangGraphAIService.rate_limit_check
    rw [hreset, if_pos hq]
  have h2 : LangGraphAIService.make_api_call_with_retry gen prompt 3 st clock today =
      ⟨unexpectedIssueMsg, 0, 1, st, clock⟩ := by
    show LangGraphAIService.apiLoop gen prompt 3 today (2 + 1) 0 st clock 0 = _
    exact apiLoop_rlcError_unknown gen prompt 3 today 2 0 st clock 0 dailyLimitMsg h1
      (by decide) (by decide)
  exact ⟨h1, by rw [h2], by rw [h2], by rw [h2]⟩

/-- Witness for C2: a counter state at the ceiling on the current date. -/
theorem c2_quota_ceiling_witness :
    LangGraphAIService.rate_limit_check ⟨0, 45, 45, 0⟩ 100 0 = Except.error dailyLimitMsg ∧
    (LangGraphAIService.make_api_call_with_retry (fun _ => Except.ok "text") "p" 3
      ⟨0, 45, 45, 0⟩ 100 0).result = unexpectedIssueMsg ∧
    (LangGraphAIService.make_api_call_with_retry (fun _ => Except.ok "text") "p" 3
      ⟨0, 45, 45, 0⟩ 100 0).genAttempts = 0 ∧
    (LangGraphAIService.make_api_call_with_retry (fun _ => Except.ok "text") "p" 3
      ⟨0, 45, 45, 0⟩ 100 0).iterations = 1 :=
  c2_quota_ceiling ⟨0, 45, 45, 0⟩ 100 0 (fun _ => Except.ok "text") "p"
    (by decide) (by decide)

/-- C9: Pacing — whenever the admission check succeeds, the clock value at
which the external attempt begins is at least the minimum interval after
the previous call's recorded start, and it is recorded as the new
`last_request_time`; the wait is the cooperative `asyncio.sleep`
suspension, modelled as the only clock advance.  Applied to two
back-to-back wrapper calls, the second attempt therefore cannot begin
(hence cannot complete) before `minInterval` has elapsed since the first
attempt's start. -/
theorem c9_pacing (st : AIState) (clock : Int) (today : Int) (st2 : AIState)
    (clock2 : Int)
    (h : LangGraphAIService.rate_limit_check st clock today = Except.ok (st2, clock2)) :
    st.last_request_time + minInterval ≤ clock2 ∧
    st2.last_request_time = clock2 := by
  have hlrt : (LangGraphAIService.resetDaily st today).last_request_time =
      st.last_request_time := by
    unfold LangGraphAIService.resetDaily
    by_cases hr : st.last_reset_time < today <;> simp [hr]
  unfold LangGraphAIService.rate_limit_check at h
  by_cases hq : dailyCeiling ≤ (LangGraphAIService.resetDaily st today).daily_request_count
  · rw [if_pos hq] at h
    exact absurd h (by simp)
  · rw [if_neg hq] at h
    injection h with h'
    have h1 : st2 = { LangGraphAIService.resetDaily st today with
        last_request_time :=
          LangGraphAIService.paceClock (LangGraphAIService.resetDaily st today) clock,
        request_count := (LangGraphAIService.resetDaily st today).request_count + 1,
        daily_request_count :=
          (LangGraphAIService.resetDaily st today).daily_request_count + 1 } :=
      (congrArg Prod.fst h').symm
    have h2 : clock2 =
        LangGraphAIService.paceClock (LangGraphAIService.resetDaily st today) clock :=
      (congrArg Prod.snd h').symm
    constructor
    · rw [h2, ← hlrt]
      unfold LangGraphAIService.paceClock
      by_cases hp : clock - (LangGraphAIService.resetDaily st today).last_request_time <
        minInterval
      · rw [if_pos hp]
        linarith
      · rw [if_neg hp]
        push_neg at hp
        linarith
    · rw [h1, h2]

/-- Witness for C9: counters at zero, a clock well past the interval; the
check succeeds, the attempt start is recorded, and the bound holds. -/
theorem c9_pacing_witness :
    (⟨0, 0, 0, 0⟩ : AIState).last_request_time + minInterval ≤ 100 ∧
    (⟨100, 1, 1, 0⟩ : AIState).last_request_time = 100 :=
  c9_pacing ⟨0, 0, 0, 0⟩ 100 0 ⟨100, 1, 1, 0⟩ 100
    (by
      norm_num [LangGraphAIService.rate_limit_check, LangGraphAIService.resetDaily,
        LangGraphAIService.paceClock, minInterval, dailyCeiling])

/-! ## Data model rows and the world state

Database rows of `src/core.py` lines 221-252 and the threaded process
state: the relational tables, the shared AI-service counters, the clock,
the current date, and the id-generation counter. -/

/-- One conversation-history entry as appended by `analyze_input_node`
(`src/core.py` lines 654-658). -/
structure HistEntry where
  timestamp : Int
  user_message : String
  analysis : String
deriving Repr, DecidableEq

/-- The decrypted session payload stored by `save_session_state`
(`src/core.py` lines 341-344): `conversation_history` plus a
`last_updated` stamp; the `"{}"` payload written by
`get_or_create_user_for_session` reads back as an empty history via
`payload.get("conversation_history", [])`. -/
structure SessPayload where
  conversation_history : List HistEntry
deriving Repr, DecidableEq

/-- The serialized `Goal` entity (`src/core.py` lines 198-215) as the dict
persisted by `identify_goals_node` / `save_goal_for_user`: enum status as
its string value, datetimes as clock stamps. -/
structure GoalDict where
  internal_id : String
  session_token : String
  primary_goal : String
  domains : List String
  timeframe : String
  desired_outcomes : List String
  status : String
  progress : Nat
  created_at : Int
  target_date : Option Int
deriving Repr, DecidableEq

/-- `SessionRecord` (`src/core.py` lines 223-232). -/
structure SessionRow where
  session_token : String
  user_internal_id : Option String
  encrypted_data : Encrypted SessPayload
  created_at : Int
  last_activity : Int
  status : String
deriving Repr, DecidableEq

/-- `GoalRecord` (`src/core.py` lines 234-243). -/
structure GoalRow where
  internal_goal_id : String
  user_internal_id : String
  session_token : String
  encrypted_goal_data : Encrypted GoalDict
  created_at : Int
  updated_at : Int
deriving Repr, DecidableEq

/-- `User` (`src/core.py` lines 245-252). -/
structure UserRow where
  internal_user_id : String
  status : String
deriving Repr, DecidableEq

/-- The process state threaded through every operation: the three tables,
the shared AI-service counters, the clock, the date, and the internal-id
counter. -/
structure World where
  sessions : List SessionRow
  users : List UserRow
  goals : List GoalRow
  ai : AIState
  clock : Int
  today : Int
  counter : Nat
deriving Repr, DecidableEq

/-- A fresh world: empty tables, counters at zero, an arbitrary start
clock past the pacing interval. -/
def World.fresh : World :=
  { sessions := [], users := [], goals := [], ai := ⟨0, 0, 0, 0⟩,
    clock := 1000, today := 0, counter := 0 }

/-- `SecurityManager.generate_internal_id` (`src/core.py` lines 79-86):
timestamp + in-process counter + random token, encrypted and truncated.
Modelled as a deterministic fresh name from the counter — only the
freshness and equality of ids are observable in the claims. -/
def generate_internal_id (w : World) (pref : String) : String × World :=
  (pref ++ "_" ++ toString w.counter, { w with counter := w.counter + 1 })

/-- The empty session payload `"{}"` stored when
`get_or_create_user_for_session` creates the session row. -/
def emptySessPayload : SessPayload := ⟨[]⟩

/-- Link the first session row carrying the token to the user id
(`session_record.user_internal_id = internal_user_id` on the row found by
`.filter_by(session_token=...).first()`, `src/core.py` lines 115-117). -/
def linkSessionUser : List SessionRow → String → String → List SessionRow
  | [], _, _ => []
  | r :: t, token, uid =>
    if r.session_token == token then { r with user_internal_id := some uid } :: t
    else r :: linkSessionUser t token uid

namespace SecurityManager

/-- `SecurityManager.get_or_create_user_for_session` (`src/core.py` lines
98-137): if the session row exists and already carries a user id, return
it; otherwise mint a user id, insert the `User` row, and either link the
existing session row or insert a fresh one holding the token, the user id
and an encrypted empty payload. -/
def get_or_create_user_for_session (w : World) (session_token : String) :
    String × World :=
  match w.sessions.find? (fun r => r.session_token == session_token) with
  | some r =>
    match r.user_internal_id with
    | some uid => (uid, w)
    | none =>
      let p := generate_internal_id w "user"
      (p.1, { p.2 with
        users := p.2.users ++ [⟨p.1, "active"⟩],
        sessions := linkSessionUser p.2.sessions session_token p.1 })
  | none =>
    let p := generate_internal_id w "user"
    (p.1, { p.2 with
      users := p.2.users ++ [⟨p.1, "active"⟩],
      sessions := p.2.sessions ++
        [⟨session_token, some p.1, SecurityManager.encrypt_data emptySessPayload,
          p.2.clock, p.2.clock, "active"⟩] })

end SecurityManager

namespace LangGraphMemoryManager

/-- `LangGraphMemoryManager.load_goals_for_user` (`src/core.py` lines
278-298): query the goal table filtered by the `user_internal_id` column —
the filtering happens at the query layer, before any decryption — then
decrypt each row's payload, skipping rows that fail to decrypt. -/
def load_goals_for_user (w : World) (user_id : String) : List GoalDict :=
  ((w.goals.filter (fun r => r.user_internal_id == user_id)).filterMap
    (fun r => SecurityManager.decrypt_data r.encrypted_goal_data))

/-- `LangGraphMemoryManager.save_goal_for_user` (`src/core.py` lines
300-327): mint a goal id and append an encrypted goal row linked to the
user. -/
def save_goal_for_user (w : World) (goal : GoalDict) (user_id : String) : World :=
  match generate_internal_id w "goal" with
  | (gid, w1) =>
    { w1 with
      goals := w1.goals ++
        [⟨gid, user_id, goal.session_token, SecurityManager.encrypt_data goal,
          w1.clock, w1.clock⟩] }

end LangGraphMemoryManager

/-- C1: Multi-tenant isolation — for distinct user ids `A ≠ B`, every
payload returned by `load_goals_for_user A` originates from a goal row
whose `user_internal_id` column equals `A` (the query-layer filter), hence
from no row stored under `B`; decryption only ever runs on the
query-filtered rows. -/
theorem c1_goal_isolation (w : World) (A B : String) (hAB : A ≠ B) :
    ∀ p ∈ LangGraphMemoryManager.load_goals_for_user w A,
      ∃ r ∈ w.goals,
        SecurityManager.decrypt_data r.encrypted_goal_data = some p ∧
        r.user_internal_id = A ∧ r.user_internal_id ≠ B := by
  intro p hp
  unfold LangGraphMemoryManager.load_goals_for_user at hp
  obtain ⟨r, hr, hdec⟩ := List.mem_filterMap.mp hp
  obtain ⟨hrg, hbeq⟩ := List.mem_filter.mp hr
  have heq : r.user_internal_id = A := by
    exact eq_of_beq hbeq
  exact ⟨r, hrg, hdec, heq, by rw [heq]; exact hAB⟩

/-- Example goal payload used by concrete store scenarios. -/
def gdEx : GoalDict :=
  ⟨"goal_0", "tokA", "run a 5k", ["fitness"], "6 weeks", ["finish a race"],
    "analyzing", 0, 0, none⟩

/-- Example world for C1: one goal row stored under user `"a"`. -/
def wIso : World :=
  { World.fresh with
    goals := [⟨"g_0", "a", "tokA", SecurityManager.encrypt_data gdEx, 0, 0⟩] }

/-- Witness for C1: with users `"a" ≠ "b"`, the one payload that
`load_goals_for_user "a"` returns comes from a row filed under `"a"`,
not under `"b"`. -/
theorem c1_goal_isolation_witness :
    ∃ r ∈ wIso.goals,
      SecurityManager.decrypt_data r.encrypted_goal_data = some gdEx ∧
      r.user_internal_id = "a" ∧ r.user_internal_id ≠ "b" :=
  c1_goal_isolation wIso "a" "b" (by decide) gdEx (by decide)

/-- Helper: `find?` over a single-row link update still finds the row, now
carrying the user id. -/
theorem find?_linkSessionUser (l : List SessionRow) (token uid : String)
    (r : SessionRow)
    (h : l.find? (fun s => s.session_token == token) = some r) :
    (linkSessionUser l token uid).find? (fun s => s.session_token == token) =
      some { r with user_internal_id := some uid } := by
  induction l with
  | nil => exact absurd h (by simp)
  | cons a t ih =>
    by_cases ha : a.session_token == token
    · have hra : r = a := by
        simp only [List.find?, ha] at h
        exact (Option.some.inj h).symm
      subst hra
      simp [linkSessionUser, ha, List.find?]
    · simp only [List.find?, ha] at h
      replace h := h
      simp only [linkSessionUser, ha, if_false, Bool.false_eq_true]
      simp only [List.find?, ha]
      exact ih (by simpa using h)

/-- Helper: appending one row to a table in which `find?` fails makes the
appended row the first match (or none). -/
theorem find?_append_one (l : List SessionRow) (p : SessionRow → Bool)
    (x : SessionRow) (h : l.find? p = none) :
    (l ++ [x]).find? p = if p x then some x else none := by
  induction l with
  | nil =>
    simp only [List.nil_append, List.find?]
    cases hx : p x <;> simp [hx]
  | cons a t ih =>
    have ha : p a = false := by
      by_contra hc
      simp only [List.find?] at h
      rw [Bool.not_eq_false] at hc
      rw [hc] at h
      exact Option.noConfusion h
    simp only [List.find?, ha] at h
    simp only [List.cons_append, List.find?, ha]
    exact ih h

/-- C8: Idempotent user resolution — a first call with an unseen session
token creates a `User` row and a `Session` row linked to that token, and
the immediately following call with the same token is a no-op returning
the same user id and leaving the world unchanged (so every subsequent call
returns that same user id). -/
theorem c8_get_or_create_idempotent (w : World) (token : String)
    (h : ∀ r ∈ w.sessions, r.session_token ≠ token) :
    SecurityManager.get_or_create_user_for_session
        (SecurityManager.get_or_create_user_for_session w token).2 token =
      ((SecurityManager.get_or_create_user_for_session w token).1,
        (SecurityManager.get_or_create_user_for_session w token).2) ∧
    (∃ r ∈ (SecurityManager.get_or_create_user_for_session w token).2.sessions,
      r.session_token = token ∧
      r.user_internal_id = some (SecurityManager.get_or_create_user_for_session w token).1) ∧
    (∃ u ∈ (SecurityManager.get_or_create_user_for_session w token).2.users,
      u.internal_user_id = (SecurityManager.get_or_create_user_for_session w token).1) := by
  have hfind : w.sessions.find? (fun r => r.session_token == token) = none := by
    rw [List.find?_eq_none]
    intro r hr
    simpa using h r hr
  have hcall : SecurityManager.get_or_create_user_for_session w token =
      ("user_" ++ toString w.counter,
        { w with
          counter := w.counter + 1,
          users := w.users ++ [⟨"user_" ++ toString w.counter, "active"⟩],
          sessions := w.sessions ++
            [⟨token, some ("user_" ++ toString w.counter),
              SecurityManager.encrypt_data emptySessPayload, w.clock, w.clock,
              "active"⟩] }) := by
    unfold SecurityManager.get_or_create_user_for_session
    rw [hfind]
    rfl
  rw [hcall]
  refine ⟨?_, ?_, ?_⟩
  · unfold SecurityManager.get_or_create_user_for_session
    rw [find?_append_one _ _ _ hfind]
    simp
  · exact ⟨_, List.mem_append_right _ (List.mem_singleton.mpr rfl), rfl, rfl⟩
  · exact ⟨_, List.mem_append_right _ (List.mem_singleton.mpr rfl), rfl⟩

/-- Witness for C8: resolving an unseen token `"t"` on a fresh world. -/
theorem c8_get_or_create_idempotent_witness :
    SecurityManager.get_or_create_user_for_session
        (SecurityManager.get_or_create_user_for_session World.fresh "t").2 "t" =
      ((SecurityManager.get_or_create_user_for_session World.fresh "t").1,
        (SecurityManager.get_or_create_user_for_session World.fresh "t").2) ∧
    (∃ r ∈ (SecurityManager.get_or_create_user_for_session World.fresh "t").2.sessions,
      r.session_token = "t" ∧
      r.user_internal_id =
        some (SecurityManager.get_or_create_user_for_session World.fresh "t").1) ∧
    (∃ u ∈ (SecurityManager.get_or_create_user_for_session World.fresh "t").2.users,
      u.internal_user_id =
        (SecurityManager.get_or_create_user_for_session World.fresh "t").1) :=
  c8_get_or_create_idempotent World.fresh "t" (by intro r hr; cases hr)

/-! ## Turn-scoped agent state and session persistence -/

/-- The LangGraph `AgentState` (`src/core.py` lines 145-172).
`user_profile` is never populated by any code path under verification, so
only its presence is modelled. -/
structure AgentState where
  user_message : String
  session_token : String
  user_id : String
  current_step : String
  analysis_complete : Bool
  goal_identified : Bool
  plan_generated : Bool
  user_profile : Option Unit
  current_goal : Option GoalDict
  conversation_history : List HistEntry
  user_analysis : Option String
  goal_assessment : Option Json
  comprehensive_plan : Option String
  response_message : String
  created_at : Int
  last_updated : Int
  processing_errors : List String

/-- Replace the payload and bump `last_activity` on the first session row
carrying the token (`src/core.py` lines 348-351). -/
def updateSessionData :
    List SessionRow → String → Encrypted SessPayload → Int → List SessionRow
  | [], _, _, _ => []
  | r :: t, token, enc, now =>
    if r.session_token == token then
      { r with encrypted_data := enc, last_activity := now } :: t
    else r :: updateSessionData t token enc now

namespace LangGraphMemoryManager

/-- `LangGraphMemoryManager.save_session_state` (`src/core.py` lines
329-384): serialize the conversation history, encrypt it, and upsert the
session row by token.  (The parallel ChromaDB upsert is write-only and
omitted.) -/
def save_session_state (w : World) (s : AgentState) : World :=
  let enc := SecurityManager.encrypt_data (⟨s.conversation_history⟩ : SessPayload)
  match w.sessions.find? (fun r => r.session_token == s.session_token) with
  | some _ =>
    { w with sessions := updateSessionData w.sessions s.session_token enc w.clock }
  | none =>
    { w with sessions := w.sessions ++
        [⟨s.session_token, none, enc, w.clock, w.clock, "active"⟩] }

/-- The "minimal state" composed by `load_session_state` (`src/core.py`
lines 399-418): empty message, `current_step = "resume"`, cleared flags,
`current_goal` hard-coded to `None`, and the decrypted conversation
history. -/
def resumeState (token uid : String) (hist : List HistEntry) (created now : Int) :
    AgentState :=
  { user_message := "", session_token := token, user_id := uid,
    current_step := "resume", analysis_complete := false,
    goal_identified := false, plan_generated := false, user_profile := none,
    current_goal := none, conversation_history := hist, user_analysis := none,
    goal_assessment := none, comprehensive_plan := none, response_message := "",
    created_at := created, last_updated := now, processing_errors := [] }

/-- `LangGraphMemoryManager.load_session_state` (`src/core.py` lines
386-427): find the session row by token, decrypt its payload (a failed
decryption reads as "no prior state"), and compose the minimal resumed
state; a row with no linked user id falls back to a freshly generated one
(`session_record.user_internal_id or security.generate_internal_id("user")`). -/
def load_session_state (w : World) (session_token : String) :
    Option AgentState × World :=
  match w.sessions.find? (fun r => r.session_token == session_token) with
  | none => (none, w)
  | some r =>
    match SecurityManager.decrypt_data r.encrypted_data with
    | none => (none, w)
    | some payload =>
      match r.user_internal_id with
      | some uid =>
        (some (resumeState session_token uid payload.conversation_history
          r.created_at w.clock), w)
      | none =>
        let p := generate_internal_id w "user"
        (some (resumeState session_token p.1 payload.conversation_history
          r.created_at p.2.clock), p.2)

end LangGraphMemoryManager

/-- The record returned by a successful `get_session_history`
(`src/core.py` lines 952-959). -/
structure HistoryView where
  conversation_history : List HistEntry
  current_goal : Option GoalDict
  past_goals : List GoalDict
  session_created : Int
  total_goals : Nat
deriving Repr, DecidableEq

namespace LangGraphGigiService

/-- `LangGraphGigiService.get_session_history` (`src/core.py` lines
938-963): load the session state (failure is the "Session not found"
result, `none` here), then load the user's goals from the database and
assemble the view from the loaded state's fields. -/
def get_session_history (w : World) (session_token : String) :
    Option HistoryView × World :=
  match LangGraphMemoryManager.load_session_state w session_token with
  | (none, w1) => (none, w1)
  | (some st, w1) =>
    let past :=
      if st.user_id ≠ "" then LangGraphMemoryManager.load_goals_for_user w1 st.user_id
      else []
    (some ⟨st.conversation_history, st.current_goal, past, st.created_at,
      past.length⟩, w1)

end LangGraphGigiService

/-- Helper: every state composed by `load_session_state` has
`current_goal = None` — the persisted payload carries only the
conversation history and a stamp, and the reconstruction hard-codes the
goal away. -/
theorem load_session_state_no_goal (w : World) (token : String)
    (st : AgentState) (w2 : World)
    (h : LangGraphMemoryManager.load_session_state w token = (some st, w2)) :
    st.current_goal = none := by
  unfold LangGraphMemoryManager.load_session_state at h
  split at h
  · exact absurd (congrArg Prod.fst h) (by simp)
  · split at h
    · exact absurd (congrArg Prod.fst h) (by simp)
    · split at h
      · have h1 := congrArg Prod.fst h
        simp only [Option.some.injEq] at h1
        rw [← h1]
        rfl
      · have h1 := congrArg Prod.fst h
        simp only [Option.some.injEq] at h1
        rw [← h1]
        rfl

/-- C10: for every session token, when `get_session_history` succeeds its
`current_goal` field is `None`: the persisted session payload records only
the conversation history, and `load_session_state` reconstructs the state
with `current_goal` hard-coded to `None`, so past goals are recoverable
only through `past_goals`. -/
theorem c10_history_goal_none (w : World) (token : String)
    (res : HistoryView) (w2 : World)
    (h : LangGraphGigiService.get_session_history w token = (some res, w2)) :
    res.current_goal = none := by
  unfold LangGraphGigiService.get_session_history at h
  split at h
  · exact absurd (congrArg Prod.fst h) (by simp)
  · next st w1 heq =>
    have h1 := congrArg Prod.fst h
    simp only [Option.some.injEq] at h1
    rw [← h1]
    exact load_session_state_no_goal w token st w1 heq

/-- Example world for C10: one persisted session with a linked user and an
empty history payload. -/
def wSess : World :=
  { World.fresh with
    sessions := [⟨"t", some "u", SecurityManager.encrypt_data emptySessPayload,
      0, 0, "active"⟩] }

/-- Example view returned for `wSess`. -/
def resSess : HistoryView := ⟨[], none, [], 0, 0⟩

/-- Witness for C10 at a concrete stored session. -/
theorem c10_history_goal_none_witness :
    LangGraphGigiService.get_session_history wSess "t" = (some resSess, wSess) ∧
    resSess.current_goal = none :=
  ⟨by rfl, c10_history_goal_none wSess "t" resSess wSess (by rfl)⟩

/-! ## LangGraph agent nodes and workflow

The stage bodies (`src/core.py` lines 597-793), the conditional routers
(lines 799-824) and the graph wiring (lines 826-878).  Prompt texts are
abbreviated concatenations — they are consumed only by the generation
oracle, which no claim observes through its prompt argument. -/

/-- Thread one wrapper invocation through the world: run
`_make_api_call_with_retry` on the shared counters and clock.  The wrapper
is total — it never raises into the calling stage. -/
def invokeAI (gen : String → Except String String) (w : World) (prompt : String) :
    String × World :=
  let o := LangGraphAIService.make_api_call_with_retry gen prompt 3 w.ai w.clock w.today
  (o.result, { w with ai := o.state, clock := o.clock })

/-- Prompt of `analyze_user_input` (`src/core.py` lines 499-522),
abbreviated; it embeds the message, recent history and past-goal count. -/
def analyzePrompt (msg : String) (hist : List HistEntry) (pastCount : Nat) : String :=
  "Analyze this user message. Context: " ++ toString hist.length ++ " entries, " ++
    toString pastCount ++ " past goals. User Message: " ++ msg

/-- Prompt of `assess_goals` (`src/core.py` lines 524-544), abbreviated. -/
def assessPrompt (msg analysis : String) : String :=
  "Return ONLY valid JSON goal data. User Message: " ++ msg ++
    " User Analysis: " ++ analysis

/-- Prompt of `generate_comprehensive_plan` (`src/core.py` lines 546-565),
abbreviated. -/
def planPrompt (hasAssessment : Bool) : String :=
  "Create a comprehensive, personalized wellness plan. " ++
    (if hasAssessment then "Goal data attached." else "New user")

/-- Pydantic v1 `str`-field coercion (accepts strings, numbers and bools;
rejects null, lists and objects with a `ValidationError`). -/
def coerceStr : Json → Option String
  | Json.str s => some s
  | Json.num lexeme => some lexeme
  | Json.bool b => some (if b then "True" else "False")
  | _ => none

/-- Pydantic v1 `List[str]`-field coercion, element-wise. -/
def coerceStrList : List Json → Option (List String)
  | [] => some []
  | j :: t =>
    match coerceStr j, coerceStrList t with
    | some s, some l => some (s :: l)
    | _, _ => none

/-- `goal_data[k]` followed by the `str` field validation of `Goal`;
`Except.error` models the `KeyError` / `ValidationError` caught by
`identify_goals_node`. -/
def getStrField (j : Json) (k : String) : Except String String :=
  match jsonField j k with
  | none => Except.error ("KeyError: " ++ k)
  | some v =>
    match coerceStr v with
    | some s => Except.ok s
    | none => Except.error ("validation error: " ++ k)

/-- `goal_data[k]` followed by the `List[str]` field validation of `Goal`. -/
def getStrListField (j : Json) (k : String) : Except String (List String) :=
  match jsonField j k with
  | none => Except.error ("KeyError: " ++ k)
  | some (Json.arr l) =>
    match coerceStrList l with
    | some xs => Except.ok xs
    | none => Except.error ("validation error: " ++ k)
  | some _ => Except.error ("validation error: " ++ k)

/-- `start_session_node` (`src/core.py` lines 597-624): mint a token when
none is supplied, resolve/create the owning user, then attempt to load
prior session state and merge it wholesale into the working state while
restoring the newly supplied message (`state.update(existing_state);
state["user_message"] = user_message`), re-filling `user_id` only if the
merged value is falsy. -/
def start_session_node (w : World) (s : AgentState) : World × AgentState :=
  match (if s.session_token = "" then
      match generate_internal_id w "session" with
      | (tok, w1) => ({ s with session_token := tok, created_at := w1.clock }, w1)
    else (s, w)) with
  | (s0, w0) =>
    match SecurityManager.get_or_create_user_for_session w0 s0.session_token with
    | (uid, w1) =>
      let s1 := { s0 with
        user_id := uid, current_step := "analyzing_input", last_updated := w1.clock }
      match LangGraphMemoryManager.load_session_state w1 s1.session_token with
      | (existing, w2) =>
        match existing with
        | none => (w2, s1)
        | some prior =>
          let merged := { prior with user_message := s1.user_message }
          (w2, if merged.user_id = "" then { merged with user_id := uid } else merged)

/-- `analyze_input_node` (`src/core.py` lines 626-666): load the user's
past goals for context, invoke the wrapper with the analysis prompt, store
the analysis, set `analysis_complete`, advance the step and append a
history entry.  The wrapper and the store are total here, so the
`except` branch that records a processing error is unreachable in the
model, exactly as in the happy-path source. -/
def analyze_input_node (gen : String → Except String String) (w : World)
    (s : AgentState) : World × AgentState :=
  let past := LangGraphMemoryManager.load_goals_for_user w s.user_id
  let r := invokeAI gen w (analyzePrompt s.user_message s.conversation_history past.length)
  (r.2, { s with
    user_analysis := some r.1,
    analysis_complete := true,
    current_step := "identifying_goals",
    conversation_history := s.conversation_history ++
      [⟨r.2.clock, s.user_message, r.1⟩] })

/-- `identify_goals_node` (`src/core.py` lines 668-707): invoke the
wrapper, parse the reply with `_parse_json_safe`, construct the `Goal`
entity (a missing key or a field of the wrong shape raises, which appends
to `processing_errors` and routes to error handling), serialize it with
the enum as its string value, set `goal_identified`. -/
def identify_goals_node (gen : String → Except String String) (w : World)
    (s : AgentState) : World × AgentState :=
  match invokeAI gen w (assessPrompt s.user_message (s.user_analysis.getD "")) with
  | (respText, w1) =>
    let goal_data := parse_json_safe respText
    let built : Except String (String × List String × String × List String) := do
      let pg ← getStrField goal_data "primary_goal"
      let doms ← getStrListField goal_data "domains"
      let tf ← getStrField goal_data "timeframe"
      let outs ← getStrListField goal_data "desired_outcomes"
      Except.ok (pg, doms, tf, outs)
    match built with
    | Except.ok (pg, doms, tf, outs) =>
      match generate_internal_id w1 "goal" with
      | (gid, w2) =>
        (w2, { s with
          goal_assessment := some goal_data,
          current_goal := some ⟨gid, s.session_token, pg, doms, tf, outs,
            "analyzing", 0, w2.clock, none⟩,
          goal_identified := true,
          current_step := "generating_plan" })
    | Except.error e =>
      (w1, { s with
        processing_errors := s.processing_errors ++ ["Goal identification failed: " ++ e],
        current_step := "error_handling" })

/-- `generate_plan_node` (`src/core.py` lines 709-727): invoke the wrapper
for the plan text, set `plan_generated`, advance the step. -/
def generate_plan_node (gen : String → Except String String) (w : World)
    (s : AgentState) : World × AgentState :=
  let r := invokeAI gen w (planPrompt s.goal_assessment.isSome)
  (r.2, { s with
    comprehensive_plan := some r.1,
    plan_generated := true,
    current_step := "finalizing_response" })

/-- The goal-summary block of `finalize_response_node`
(`src/core.py` lines 744-749). -/
def goalSummaryParts (g : GoalDict) : List String :=
  ["\n## Goal Summary\n",
   "**Primary Goal:** " ++ g.primary_goal ++ "\n",
   "**Timeframe:** " ++ g.timeframe ++ "\n",
   "**Focus Areas:** " ++ String.intercalate ", " g.domains ++ "\n"]

/-- The closing line of every composed response (`src/core.py` line 751). -/
def footerText : String :=
  "\n---\n*I'm here to support you every step of the way! Feel free to share updates or ask questions.*"

/-- `finalize_response_node` (`src/core.py` lines 729-769): concatenate
analysis, plan and goal summary (each guarded by Python truthiness, so a
`None` or empty section is skipped), join with newlines, mark the turn
complete, then persist the session state and — when a goal was identified
this turn — append the goal row. -/
def finalize_response_node (w : World) (s : AgentState) : World × AgentState :=
  let parts :=
    (match s.user_analysis with
     | some a => if a = "" then [] else ["## Understanding Your Situation\n", a, "\n"]
     | none => []) ++
    (match s.comprehensive_plan with
     | some pl => if pl = "" then [] else ["## Your Personalized Action Plan\n", pl]
     | none => []) ++
    (match s.current_goal with
     | some g => goalSummaryParts g
     | none => []) ++
    [footerText]
  let s1 := { s with
    response_message := String.intercalate "\n" parts, current_step := "complete" }
  let w1 := LangGraphMemoryManager.save_session_state w s1
  let w2 :=
    match s1.current_goal with
    | some g => LangGraphMemoryManager.save_goal_for_user w1 g s1.user_id
    | none => w1
  (w2, s1)

/-- The fixed apology of `error_handling_node` (`src/core.py` lines
775-785), after `.strip()`. -/
def apologyText : String :=
  "I apologize, but I encountered some technical difficulties while processing your request.\n\nHowever, I'm still here to help!\n\nCould you please:\n1. Try rephrasing your request\n2. Or let me know what specific area you'd like to focus on (fitness, nutrition, study habits, etc.)\n\nI'm committed to supporting your personal growth journey, so please don't hesitate to try again."

/-- `error_handling_node` (`src/core.py` lines 771-793): emit the fixed
apology, mark the turn complete; recorded errors are logged only.  It does
not persist anything. -/
def error_handling_node (w : World) (s : AgentState) : World × AgentState :=
  (w, { s with response_message := apologyText, current_step := "complete" })

/-- `should_continue_to_goals` (`src/core.py` lines 799-806). -/
def should_continue_to_goals (s : AgentState) : String :=
  if s.analysis_complete && s.processing_errors.isEmpty then "identify_goals"
  else if !s.processing_errors.isEmpty then "error_handling"
  else "analyze_input"

/-- `should_continue_to_plan` (`src/core.py` lines 808-815). -/
def should_continue_to_plan (s : AgentState) : String :=
  if s.goal_identified && s.processing_errors.isEmpty then "generate_plan"
  else if !s.processing_errors.isEmpty then "error_handling"
  else "identify_goals"

/-- `should_continue_to_finalize` (`src/core.py` lines 817-824). -/
def should_continue_to_finalize (s : AgentState) : String :=
  if s.plan_generated && s.processing_errors.isEmpty then "finalize_response"
  else if !s.processing_errors.isEmpty then "error_handling"
  else "generate_plan"

/-- The graph's node set (`create_langgraph_workflow`, `src/core.py` lines
826-878), plus the terminal `END`. -/
inductive Node where
  | start_session : Node
  | analyze_input : Node
  | identify_goals : Node
  | generate_plan : Node
  | finalize_response : Node
  | error_handling : Node
  | finished : Node
deriving Repr, DecidableEq

/-- The conditional-edge dictionary out of `analyze_input`
(`src/core.py` lines 844-852): the router's string mapped to the next
node. -/
def routeFromAnalyze (s : AgentState) : Node :=
  if should_continue_to_goals s = "identify_goals" then Node.identify_goals
  else if should_continue_to_goals s = "error_handling" then Node.error_handling
  else Node.analyze_input

/-- The conditional-edge dictionary out of `identify_goals`
(`src/core.py` lines 854-862). -/
def routeFromIdentify (s : AgentState) : Node :=
  if should_continue_to_plan s = "generate_plan" then Node.generate_plan
  else if should_continue_to_plan s = "error_handling" then Node.error_handling
  else Node.identify_goals

/-- The conditional-edge dictionary out of `generate_plan`
(`src/core.py` lines 864-872). -/
def routeFromPlan (s : AgentState) : Node :=
  if should_continue_to_finalize s = "finalize_response" then Node.finalize_response
  else if should_continue_to_finalize s = "error_handling" then Node.error_handling
  else Node.generate_plan

/-- One interpreter step of the compiled graph over the concrete stage
bodies: execute the current node's body, then follow the (conditional)
edge out of it. -/
def concreteStep (gen : String → Except String String) :
    Node × (World × AgentState) → Node × (World × AgentState)
  | (Node.start_session, (w, s)) => (Node.analyze_input, start_session_node w s)
  | (Node.analyze_input, (w, s)) =>
    let r := analyze_input_node gen w s
    (routeFromAnalyze r.2, r)
  | (Node.identify_goals, (w, s)) =>
    let r := identify_goals_node gen w s
    (routeFromIdentify r.2, r)
  | (Node.generate_plan, (w, s)) =>
    let r := generate_plan_node gen w s
    (routeFromPlan r.2, r)
  | (Node.finalize_response, (w, s)) => (Node.finished, finalize_response_node w s)
  | (Node.error_handling, (w, s)) => (Node.finished, error_handling_node w s)
  | (Node.finished, p) => (Node.finished, p)

/-- Iterate the interpreter. -/
def concreteRun (gen : String → Except String String) :
    Nat → Node × (World × AgentState) → Node × (World × AgentState)
  | 0, p => p
  | n + 1, p => concreteRun gen n (concreteStep gen p)

/-- The initial state dict built by `process_message` (`src/core.py` lines
893-910); it carries no `user_id` key, read back as the falsy `""`. -/
def mkInitialState (msg token : String) (now : Int) : AgentState :=
  { user_message := msg, session_token := token, user_id := "",
    current_step := "start", analysis_complete := false,
    goal_identified := false, plan_generated := false, user_profile := none,
    current_goal := none, conversation_history := [], user_analysis := none,
    goal_assessment := none, comprehensive_plan := none, response_message := "",
    created_at := now, last_updated := now, processing_errors := [] }

namespace LangGraphGigiService

/-- `LangGraphGigiService.process_message` (`src/core.py` lines 890-936):
mint a session token when none is supplied, build the initial state, and
run the workflow to its terminal state (8 interpreter steps strictly exceed
the graph's longest path). -/
def process_message (gen : String → Except String String) (w : World)
    (msg : String) (tok : Option String) : World × AgentState :=
  let p :=
    match tok with
    | some t => (t, w)
    | none => generate_internal_id w "session"
  (concreteRun gen 8 (Node.start_session, (p.2, mkInitialState msg p.1 p.2.clock))).2

end LangGraphGigiService

/-- Decrypted conversation history currently persisted for a token. -/
def storedHistory (w : World) (token : String) : Option (List HistEntry) :=
  (w.sessions.find? (fun r => r.session_token == token)).bind
    (fun r => (SecurityManager.decrypt_data r.encrypted_data).map
      (fun p => p.conversation_history))

/-! ## Workflow termination (C6): the graph over abstract stage bodies

The claim is conditional on what the stage bodies do ("assuming each stage
body on each execution either sets its completion flag or appends to
`processing_errors`"), so the machine is stated over arbitrary bodies
while keeping the concrete routers of the source. -/

/-- Abstract stage bodies for the termination argument. -/
structure StageBodies where
  startB : AgentState → AgentState
  analyzeB : AgentState → AgentState
  identifyB : AgentState → AgentState
  planB : AgentState → AgentState
  finalizeB : AgentState → AgentState
  errorB : AgentState → AgentState

/-- One step of the graph over abstract bodies, with the concrete
conditional edges. -/
def wfStep (b : StageBodies) : Node × AgentState → Node × AgentState
  | (Node.start_session, s) => (Node.analyze_input, b.startB s)
  | (Node.analyze_input, s) =>
    let s2 := b.analyzeB s
    (routeFromAnalyze s2, s2)
  | (Node.identify_goals, s) =>
    let s2 := b.identifyB s
    (routeFromIdentify s2, s2)
  | (Node.generate_plan, s) =>
    let s2 := b.planB s
    (routeFromPlan s2, s2)
  | (Node.finalize_response, s) => (Node.finished, b.finalizeB s)
  | (Node.error_handling, s) => (Node.finished, b.errorB s)
  | (Node.finished, s) => (Node.finished, s)

/-- Iterate the abstract machine. -/
def wfRun (b : StageBodies) : Nat → Node × AgentState → Node × AgentState
  | 0, p => p
  | n + 1, p => wfRun b n (wfStep b p)

/-- Helper: when the post-analyze state has its flag set or an error
recorded, the router never self-loops. -/
theorem routeFromAnalyze_cases (s : AgentState)
    (h : s.analysis_complete = true ∨ s.processing_errors ≠ []) :
    routeFromAnalyze s = Node.identify_goals ∨
    routeFromAnalyze s = Node.error_handling := by
  by_cases he : s.processing_errors.isEmpty
  · rcases h with h | h
    · left
      unfold routeFromAnalyze should_continue_to_goals
      rw [h, he]
      rfl
    · exact absurd (List.isEmpty_iff.mp he) h
  · right
    have he' : s.processing_errors.isEmpty = false := by
      simpa using he
    unfold routeFromAnalyze should_continue_to_goals
    rw [he', Bool.and_false]
    rfl

/-- Helper: the corresponding fact at `identify_goals`. -/
theorem routeFromIdentify_cases (s : AgentState)
    (h : s.goal_identified = true ∨ s.processing_errors ≠ []) :
    routeFromIdentify s = Node.generate_plan ∨
    routeFromIdentify s = Node.error_handling := by
  by_cases he : s.processing_errors.isEmpty
  · rcases h with h | h
    · left
      unfold routeFromIdentify should_continue_to_plan
      rw [h, he]
      rfl
    · exact absurd (List.isEmpty_iff.mp he) h
  · right
    have he' : s.processing_errors.isEmpty = false := by
      simpa using he
    unfold routeFromIdentify should_continue_to_plan
    rw [he', Bool.and_false]
    rfl

/-- Helper: the corresponding fact at `generate_plan`. -/
theorem routeFromPlan_cases (s : AgentState)
    (h : s.plan_generated = true ∨ s.processing_errors ≠ []) :
    routeFromPlan s = Node.finalize_response ∨
    routeFromPlan s = Node.error_handling := by
  by_cases he : s.processing_errors.isEmpty
  · rcases h with h | h
    · left
      unfold routeFromPlan should_continue_to_finalize
      rw [h, he]
      rfl
    · exact absurd (List.isEmpty_iff.mp he) h
  · right
    have he' : s.processing_errors.isEmpty = false := by
      simpa using he
    unfold routeFromPlan should_continue_to_finalize
    rw [he', Bool.and_false]
    rfl

/-- C6: State-machine termination — assuming each of the three guarded
stage bodies, on every execution, either sets its completion flag or
leaves `processing_errors` non-empty, every turn reaches the terminal
state within five stage executions: no self-loop at `analyze_input`,
`identify_goals` or `generate_plan` is ever taken. -/
theorem c6_workflow_termination (b : StageBodies)
    (hA : ∀ s, (b.analyzeB s).analysis_complete = true ∨
      (b.analyzeB s).processing_errors ≠ [])
    (hI : ∀ s, (b.identifyB s).goal_identified = true ∨
      (b.identifyB s).processing_errors ≠ [])
    (hP : ∀ s, (b.planB s).plan_generated = true ∨
      (b.planB s).processing_errors ≠ [])
    (s : AgentState) :
    (wfRun b 5 (Node.start_session, s)).1 = Node.finished := by
  show (wfRun b 3
    (routeFromAnalyze (b.analyzeB (b.startB s)), b.analyzeB (b.startB s))).1 =
    Node.finished
  rcases routeFromAnalyze_cases _ (hA (b.startB s)) with h1 | h1 <;> rw [h1]
  · show (wfRun b 2
      (routeFromIdentify (b.identifyB (b.analyzeB (b.startB s))),
        b.identifyB (b.analyzeB (b.startB s)))).1 = Node.finished
    rcases routeFromIdentify_cases _ (hI (b.analyzeB (b.startB s))) with h2 | h2 <;>
      rw [h2]
    · show (wfRun b 1
        (routeFromPlan (b.planB (b.identifyB (b.analyzeB (b.startB s)))),
          b.planB (b.identifyB (b.analyzeB (b.startB s))))).1 = Node.finished
      rcases routeFromPlan_cases _ (hP (b.identifyB (b.analyzeB (b.startB s)))) with
        h3 | h3 <;> rw [h3] <;> rfl
    · rfl
  · rfl

/-- Stage bodies that simply set their own flag, for the C6 witness. -/
def bodiesOk : StageBodies :=
  ⟨id, fun s => { s with analysis_complete := true },
    fun s => { s with goal_identified := true },
    fun s => { s with plan_generated := true }, id, id⟩

/-- Witness for C6 at flag-setting bodies and a concrete initial state. -/
theorem c6_workflow_termination_witness :
    (wfRun bodiesOk 5 (Node.start_session, mkInitialState "hi" "t" 0)).1 =
      Node.finished :=
  c6_workflow_termination bodiesOk (fun _ => Or.inl rfl) (fun _ => Or.inl rfl)
    (fun _ => Or.inl rfl) (mkInitialState "hi" "t" 0)

/-! ## The unknown-failure turn (C3) and the merge scenario (C7)

The concrete runs are verified one interpreter step at a time against
explicit intermediate worlds and states (keeping every definitional check
small), then composed into whole-turn equations. -/

/-- Generation oracle that always fails with an unknown-class error: its
description `"boom"` contains none of the retry keywords. -/
def genUnknownFail : String → Except String String :=
  fun _ => Except.error "boom"

/-- Generation oracle that always succeeds with a fixed free-text reply
(not JSON, so goal extraction takes the default-goal fallback). -/
def genFixedReply : String → Except String String :=
  fun _ => Except.ok "Sounds good!"

/-- Unfold one interpreter step inside a bounded run. -/
theorem concreteRun_step (gen : String → Except String String) (n : Nat)
    (p q : Node × (World × AgentState)) (h : concreteStep gen p = q) :
    concreteRun gen (n + 1) p = concreteRun gen n q := by
  rw [← h]
  rfl

/-- The fresh world after the first turn's token `"session_0"` was minted. -/
def w0Run : World := { World.fresh with counter := 1 }

/-- World builder for the single-session scenarios: one session row for
`"session_0"` owned by `"user_1"`, created at clock 1000. -/
def mkW (hist : List HistEntry) (act : Int) (goals : List GoalRow)
    (ai : AIState) (clock : Int) (counter : Nat) : World :=
  { sessions := [⟨"session_0", some "user_1", ⟨2024, ⟨hist⟩⟩, 1000, act, "active"⟩],
    users := [⟨"user_1", "active"⟩], goals := goals, ai := ai, clock := clock,
    today := 0, counter := counter }

/-- Working-state builder for the scenario intermediates. -/
def mkTurnState (msg step : String) (ac gi pg : Bool) (goal : Option GoalDict)
    (hist : List HistEntry) (ga : Option Json) (ana plan : Option String)
    (resp : String) (lu : Int) : AgentState :=
  { user_message := msg, session_token := "session_0", user_id := "user_1",
    current_step := step, analysis_complete := ac, goal_identified := gi,
    plan_generated := pg, user_profile := none, current_goal := goal,
    conversation_history := hist, user_analysis := ana, goal_assessment := ga,
    comprehensive_plan := plan, response_message := resp, created_at := 1000,
    last_updated := lu, processing_errors := [] }

/-- The default goal entity as minted in these scenarios. -/
def defaultGoalAt (gid : String) (created : Int) : GoalDict :=
  ⟨gid, "session_0", "Personal growth and wellness", ["lifestyle"], "4 weeks",
    ["Improved well-being"], "analyzing", 0, created, none⟩

/-- A persisted goal row holding a default goal. -/
def goalRowOf (rowId : String) (g : GoalDict) (t : Int) : GoalRow :=
  ⟨rowId, "user_1", "session_0", ⟨2024, g⟩, t, t⟩

/-- The response composed by `finalize_response_node` in these scenarios. -/
def composedResponse (ana plan : String) (g : GoalDict) : String :=
  String.intercalate "\n"
    (["## Understanding Your Situation\n", ana, "\n"] ++
      ["## Your Personalized Action Plan\n", plan] ++ goalSummaryParts g ++
      [footerText])

/-- First-turn world after `start_session` (both oracles). -/
def wRun1 : World := mkW [] 1000 [] ⟨0, 0, 0, 0⟩ 1000 2

/-- First-turn world after `analyze_input`. -/
def wRun2 : World := mkW [] 1000 [] ⟨1000, 1, 1, 0⟩ 1000 2

/-- First-turn world after `identify_goals`. -/
def wRun3 : World := mkW [] 1000 [] ⟨1045, 2, 2, 0⟩ 1045 3

/-- First-turn world after `generate_plan`. -/
def wRun4 : World := mkW [] 1000 [] ⟨1090, 3, 3, 0⟩ 1090 3

/-- First-turn world after `finalize_response`: the session payload holds
the one history entry and one default-goal row is persisted. -/
def wRun5 (e : HistEntry) : World :=
  mkW [e] 1090 [goalRowOf "goal_3" (defaultGoalAt "goal_2" 1045) 1090]
    ⟨1090, 3, 3, 0⟩ 1090 4

/-- First-turn state after `start_session` (merged resume state keeping the
new message). -/
def sRun1 (msg : String) : AgentState :=
  mkTurnState msg "resume" false false false none [] none none none "" 1000

/-- First-turn state after `analyze_input`, over the oracle's reply. -/
def sRun2 (msg reply : String) : AgentState :=
  mkTurnState msg "identifying_goals" true false false none
    [⟨1000, msg, reply⟩] none (some reply) none "" 1000

/-- First-turn state after `identify_goals`. -/
def sRun3 (msg reply : String) : AgentState :=
  mkTurnState msg "generating_plan" true true false
    (some (defaultGoalAt "goal_2" 1045)) [⟨1000, msg, reply⟩]
    (some fallbackGoalJson) (some reply) none "" 1000

/-- First-turn state after `generate_plan`. -/
def sRun4 (msg reply : String) : AgentState :=
  mkTurnState msg "finalizing_response" true true true
    (some (defaultGoalAt "goal_2" 1045)) [⟨1000, msg, reply⟩]
    (some fallbackGoalJson) (some reply) (some reply) "" 1000

/-- First-turn state after `finalize_response`. -/
def sRun5 (msg reply : String) : AgentState :=
  mkTurnState msg "complete" true true true
    (some (defaultGoalAt "goal_2" 1045)) [⟨1000, msg, reply⟩]
    (some fallbackGoalJson) (some reply) (some reply)
    (composedResponse reply reply (defaultGoalAt "goal_2" 1045)) 1000

/-- Unknown-failure turn, step 1 (`start_session`). -/
theorem c3Step1 :
    concreteStep genUnknownFail
      (Node.start_session, (w0Run, mkInitialState "hi" "session_0" 1000)) =
      (Node.analyze_input, (wRun1, sRun1 "hi")) := by rfl

/-- Unknown-failure turn, step 2 (`analyze_input`): the wrapper swallows
the unknown-class failure, the stage completes, and the edge taken is
`identify_goals`. -/
theorem c3Step2 :
    concreteStep genUnknownFail (Node.analyze_input, (wRun1, sRun1 "hi")) =
      (Node.identify_goals, (wRun2, sRun2 "hi" unexpectedIssueMsg)) := by rfl

/-- Unknown-failure turn, step 3 (`identify_goals` via the parse fallback). -/
theorem c3Step3 :
    concreteStep genUnknownFail
      (Node.identify_goals, (wRun2, sRun2 "hi" unexpectedIssueMsg)) =
      (Node.generate_plan, (wRun3, sRun3 "hi" unexpectedIssueMsg)) := by rfl

/-- Unknown-failure turn, step 4 (`generate_plan`). -/
theorem c3Step4 :
    concreteStep genUnknownFail
      (Node.generate_plan, (wRun3, sRun3 "hi" unexpectedIssueMsg)) =
      (Node.finalize_response, (wRun4, sRun4 "hi" unexpectedIssueMsg)) := by rfl

/-- Unknown-failure turn, step 5 (`finalize_response` persists session and
goal). -/
theorem c3Step5 :
    concreteStep genUnknownFail
      (Node.finalize_response, (wRun4, sRun4 "hi" unexpectedIssueMsg)) =
      (Node.finished, (wRun5 ⟨1000, "hi", unexpectedIssueMsg⟩,
        sRun5 "hi" unexpectedIssueMsg)) := by rfl

/-- The whole unknown-failure turn as one equation. -/
theorem c3Run :
    LangGraphGigiService.process_message genUnknownFail World.fresh "hi" none =
      (wRun5 ⟨1000, "hi", unexpectedIssueMsg⟩, sRun5 "hi" unexpectedIssueMsg) := by
  show (concreteRun genUnknownFail 8
    (Node.start_session, (w0Run, mkInitialState "hi" "session_0" 1000))).2 = _
  have e1 : concreteRun genUnknownFail 8
      (Node.start_session, (w0Run, mkInitialState "hi" "session_0" 1000)) =
      concreteRun genUnknownFail 7 (Node.analyze_input, (wRun1, sRun1 "hi")) :=
    concreteRun_step genUnknownFail 7 _ _ c3Step1
  have e2 : concreteRun genUnknownFail 7
      (Node.analyze_input, (wRun1, sRun1 "hi")) =
      concreteRun genUnknownFail 6
        (Node.identify_goals, (wRun2, sRun2 "hi" unexpectedIssueMsg)) :=
    concreteRun_step genUnknownFail 6 _ _ c3Step2
  have e3 : concreteRun genUnknownFail 6
      (Node.identify_goals, (wRun2, sRun2 "hi" unexpectedIssueMsg)) =
      concreteRun genUnknownFail 5
        (Node.generate_plan, (wRun3, sRun3 "hi" unexpectedIssueMsg)) :=
    concreteRun_step genUnknownFail 5 _ _ c3Step3
  have e4 : concreteRun genUnknownFail 5
      (Node.generate_plan, (wRun3, sRun3 "hi" unexpectedIssueMsg)) =
      concreteRun genUnknownFail 4
        (Node.finalize_response, (wRun4, sRun4 "hi" unexpectedIssueMsg)) :=
    concreteRun_step genUnknownFail 4 _ _ c3Step4
  have e5 : concreteRun genUnknownFail 4
      (Node.finalize_response, (wRun4, sRun4 "hi" unexpectedIssueMsg)) =
      concreteRun genUnknownFail 3
        (Node.finished, (wRun5 ⟨1000, "hi", unexpectedIssueMsg⟩,
          sRun5 "hi" unexpectedIssueMsg)) :=
    concreteRun_step genUnknownFail 3 _ _ c3Step5
  rw [e1, e2, e3, e4, e5]
  rfl

/-- Counterexample to C3 as stated: with the external dependency failing
with the unknown-class error `"boom"` during `analyze_input` on the turn
`process_message "hi"` from a fresh world, the edge taken out of
`analyze_input` is `identify_goals` — not `error_handling` —, the final
response is the composed coaching response rather than the fixed apology,
and one Goal record IS persisted for the turn. -/
theorem c3_counterexample :
    (concreteRun genUnknownFail 2
      (Node.start_session, (w0Run, mkInitialState "hi" "session_0" 1000))).1 =
      Node.identify_goals ∧
    (LangGraphGigiService.process_message genUnknownFail World.fresh "hi"
      none).2.response_message ≠ apologyText ∧
    (LangGraphGigiService.process_message genUnknownFail World.fresh "hi"
      none).1.goals.length = 1 := by
  refine ⟨?_, ?_, ?_⟩
  · have r1 : concreteRun genUnknownFail 2
        (Node.start_session, (w0Run, mkInitialState "hi" "session_0" 1000)) =
        concreteRun genUnknownFail 1 (Node.analyze_input, (wRun1, sRun1 "hi")) :=
      concreteRun_step genUnknownFail 1 _ _ c3Step1
    have r2 : concreteRun genUnknownFail 1
        (Node.analyze_input, (wRun1, sRun1 "hi")) =
        concreteRun genUnknownFail 0
          (Node.identify_goals, (wRun2, sRun2 "hi" unexpectedIssueMsg)) :=
      concreteRun_step genUnknownFail 0 _ _ c3Step2
    rw [r1, r2]
    rfl
  · rw [c3Run]
    decide
  · rw [c3Run]
    rfl

/-- C3 (amended): when the external generation dependency fails with an
unknown-class error during `analyze_input`, the wrapper does not retry but
swallows the failure and returns its fixed fallback text, so the stage
completes normally (`analysis_complete` set, no processing error
recorded), the turn routes to `identify_goals` and continues through plan
generation and finalization to `complete`, the final response is the
composed coaching response (not the fixed apology), and one default-goal
record is persisted for that turn — verified on the `process_message "hi"`
turn against the always-failing unknown-class oracle. -/
theorem c3_unknown_failure_amended :
    (concreteRun genUnknownFail 2
      (Node.start_session, (w0Run, mkInitialState "hi" "session_0" 1000))).1 =
      Node.identify_goals ∧
    (LangGraphGigiService.process_message genUnknownFail World.fresh "hi"
      none).2.analysis_complete = true ∧
    (LangGraphGigiService.process_message genUnknownFail World.fresh "hi"
      none).2.processing_errors = [] ∧
    (LangGraphGigiService.process_message genUnknownFail World.fresh "hi"
      none).2.current_step = "complete" ∧
    (LangGraphGigiService.process_message genUnknownFail World.fresh "hi"
      none).2.response_message =
      composedResponse unexpectedIssueMsg unexpectedIssueMsg
        (defaultGoalAt "goal_2" 1045) ∧
    (LangGraphGigiService.process_message genUnknownFail World.fresh "hi"
      none).1.goals.length = 1 := by
  refine ⟨?_, ?_, ?_, ?_, ?_, ?_⟩
  · have r1 : concreteRun genUnknownFail 2
        (Node.start_session, (w0Run, mkInitialState "hi" "session_0" 1000)) =
        concreteRun genUnknownFail 1 (Node.analyze_input, (wRun1, sRun1 "hi")) :=
      concreteRun_step genUnknownFail 1 _ _ c3Step1
    have r2 : concreteRun genUnknownFail 1
        (Node.analyze_input, (wRun1, sRun1 "hi")) =
        concreteRun genUnknownFail 0
          (Node.identify_goals, (wRun2, sRun2 "hi" unexpectedIssueMsg)) :=
      concreteRun_step genUnknownFail 0 _ _ c3Step2
    rw [r1, r2]
    rfl
  · rw [c3Run]
    rfl
  · rw [c3Run]
    rfl
  · rw [c3Run]
    rfl
  · rw [c3Run]
    rfl
  · rw [c3Run]
    rfl

/-- Helper for C7: `start_session_node` never loses the supplied message —
whether or not prior state is loaded and merged, the resulting working
state's `user_message` is the one supplied for the current turn. -/
theorem start_session_preserves_message (w : World) (s : AgentState) :
    ((start_session_node w s).2).user_message = s.user_message := by
  unfold start_session_node
  by_cases htok : s.session_token = "" <;>
    simp only [htok, if_true, if_false, reduceIte] <;>
    (repeat' split) <;>
    rfl

/-- Happy turn, step 1. -/
theorem c7Step1 :
    concreteStep genFixedReply
      (Node.start_session, (w0Run, mkInitialState "hello coach" "session_0" 1000)) =
      (Node.analyze_input, (wRun1, sRun1 "hello coach")) := by rfl

/-- Happy turn, step 2. -/
theorem c7Step2 :
    concreteStep genFixedReply (Node.analyze_input, (wRun1, sRun1 "hello coach")) =
      (Node.identify_goals, (wRun2, sRun2 "hello coach" "Sounds good!")) := by rfl

/-- Happy turn, step 3. -/
theorem c7Step3 :
    concreteStep genFixedReply
      (Node.identify_goals, (wRun2, sRun2 "hello coach" "Sounds good!")) =
      (Node.generate_plan, (wRun3, sRun3 "hello coach" "Sounds good!")) := by rfl

/-- Happy turn, step 4. -/
theorem c7Step4 :
    concreteStep genFixedReply
      (Node.generate_plan, (wRun3, sRun3 "hello coach" "Sounds good!")) =
      (Node.finalize_response, (wRun4, sRun4 "hello coach" "Sounds good!")) := by rfl

/-- Happy turn, step 5. -/
theorem c7Step5 :
    concreteStep genFixedReply
      (Node.finalize_response, (wRun4, sRun4 "hello coach" "Sounds good!")) =
      (Node.finished, (wRun5 ⟨1000, "hello coach", "Sounds good!"⟩,
        sRun5 "hello coach" "Sounds good!")) := by rfl

/-- The whole first happy turn as one equation. -/
theorem c7Run1 :
    LangGraphGigiService.process_message genFixedReply World.fresh "hello coach"
      none =
      (wRun5 ⟨1000, "hello coach", "Sounds good!"⟩,
        sRun5 "hello coach" "Sounds good!") := by
  show (concreteRun genFixedReply 8
    (Node.start_session, (w0Run, mkInitialState "hello coach" "session_0" 1000))).2 = _
  have e1 : concreteRun genFixedReply 8
      (Node.start_session, (w0Run, mkInitialState "hello coach" "session_0" 1000)) =
      concreteRun genFixedReply 7
        (Node.analyze_input, (wRun1, sRun1 "hello coach")) :=
    concreteRun_step genFixedReply 7 _ _ c7Step1
  have e2 : concreteRun genFixedReply 7
      (Node.analyze_input, (wRun1, sRun1 "hello coach")) =
      concreteRun genFixedReply 6
        (Node.identify_goals, (wRun2, sRun2 "hello coach" "Sounds good!")) :=
    concreteRun_step genFixedReply 6 _ _ c7Step2
  have e3 : concreteRun genFixedReply 6
      (Node.identify_goals, (wRun2, sRun2 "hello coach" "Sounds good!")) =
      concreteRun genFixedReply 5
        (Node.generate_plan, (wRun3, sRun3 "hello coach" "Sounds good!")) :=
    concreteRun_step genFixedReply 5 _ _ c7Step3
  have e4 : concreteRun genFixedReply 5
      (Node.generate_plan, (wRun3, sRun3 "hello coach" "Sounds good!")) =
      concreteRun genFixedReply 4
        (Node.finalize_response, (wRun4, sRun4 "hello coach" "Sounds good!")) :=
    concreteRun_step genFixedReply 4 _ _ c7Step4
  have e5 : concreteRun genFixedReply 4
      (Node.finalize_response, (wRun4, sRun4 "hello coach" "Sounds good!")) =
      concreteRun genFixedReply 3
        (Node.finished, (wRun5 ⟨1000, "hello coach", "Sounds good!"⟩,
          sRun5 "hello coach" "Sounds good!")) :=
    concreteRun_step genFixedReply 3 _ _ c7Step5
  rw [e1, e2, e3, e4, e5]
  rfl

/-- Second-turn history after the first turn persisted one entry. -/
def histT2a : List HistEntry := [⟨1000, "hello coach", "Sounds good!"⟩]

/-- Second-turn history after `analyze_input` appended the new entry. -/
def histT2b : List HistEntry :=
  [⟨1000, "hello coach", "Sounds good!"⟩, ⟨1135, "second message", "Sounds good!"⟩]

/-- The goal row persisted by the first happy turn. -/
def rowT2 : GoalRow := goalRowOf "goal_3" (defaultGoalAt "goal_2" 1045) 1090

/-- Second-turn world on entry (as left by the first turn). -/
def wT2s1 : World := wRun5 ⟨1000, "hello coach", "Sounds good!"⟩

/-- Second-turn world after `analyze_input`. -/
def wT2s2 : World := mkW histT2a 1090 [rowT2] ⟨1135, 4, 4, 0⟩ 1135 4

/-- Second-turn world after `identify_goals`. -/
def wT2s3 : World := mkW histT2a 1090 [rowT2] ⟨1180, 5, 5, 0⟩ 1180 5

/-- Second-turn world after `generate_plan`. -/
def wT2s4 : World := mkW histT2a 1090 [rowT2] ⟨1225, 6, 6, 0⟩ 1225 5

/-- Second-turn world after `finalize_response`: the persisted history has
length 2 and a second goal row exists. -/
def wT2s5 : World :=
  mkW histT2b 1225 [rowT2, goalRowOf "goal_5" (defaultGoalAt "goal_4" 1180) 1225]
    ⟨1225, 6, 6, 0⟩ 1225 6

/-- Second-turn state after `start_session`: prior history merged, the new
message kept. -/
def sT2s1 : AgentState :=
  mkTurnState "second message" "resume" false false false none histT2a
    none none none "" 1090

/-- Second-turn state after `analyze_input`. -/
def sT2s2 : AgentState :=
  mkTurnState "second message" "identifying_goals" true false false none histT2b
    none (some "Sounds good!") none "" 1090

/-- Second-turn state after `identify_goals`. -/
def sT2s3 : AgentState :=
  mkTurnState "second message" "generating_plan" true true false
    (some (defaultGoalAt "goal_4" 1180)) histT2b
    (some fallbackGoalJson) (some "Sounds good!") none "" 1090

/-- Second-turn state after `generate_plan`. -/
def sT2s4 : AgentState :=
  mkTurnState "second message" "finalizing_response" true true true
    (some (defaultGoalAt "goal_4" 1180)) histT2b
    (some fallbackGoalJson) (some "Sounds good!") (some "Sounds good!") "" 1090

/-- Second-turn state after `finalize_response`. -/
def sT2s5 : AgentState :=
  mkTurnState "second message" "complete" true true true
    (some (defaultGoalAt "goal_4" 1180)) histT2b
    (some fallbackGoalJson) (some "Sounds good!") (some "Sounds good!")
    (composedResponse "Sounds good!" "Sounds good!" (defaultGoalAt "goal_4" 1180))
    1090

/-- Second turn, the `start_session` stage alone: the world is untouched,
the prior history is carried, the new message wins. -/
theorem c7T2Start :
    start_session_node wT2s1 (mkInitialState "second message" "session_0" 1090) =
      (wT2s1, sT2s1) := by rfl

/-- Second turn, step 1 via the interpreter. -/
theorem c7T2Step1 :
    concreteStep genFixedReply
      (Node.start_session, (wT2s1, mkInitialState "second message" "session_0" 1090)) =
      (Node.analyze_input, (wT2s1, sT2s1)) := by rfl

/-- Second turn, step 2. -/
theorem c7T2Step2 :
    concreteStep genFixedReply (Node.analyze_input, (wT2s1, sT2s1)) =
      (Node.identify_goals, (wT2s2, sT2s2)) := by rfl

/-- Second turn, step 3. -/
theorem c7T2Step3 :
    concreteStep genFixedReply (Node.identify_goals, (wT2s2, sT2s2)) =
      (Node.generate_plan, (wT2s3, sT2s3)) := by rfl

/-- Second turn, step 4. -/
theorem c7T2Step4 :
    concreteStep genFixedReply (Node.generate_plan, (wT2s3, sT2s3)) =
      (Node.finalize_response, (wT2s4, sT2s4)) := by rfl

/-- Second turn, step 5. -/
theorem c7T2Step5 :
    concreteStep genFixedReply (Node.finalize_response, (wT2s4, sT2s4)) =
      (Node.finished, (wT2s5, sT2s5)) := by rfl

/-- The whole second happy turn as one equation. -/
theorem c7Run2 :
    LangGraphGigiService.process_message genFixedReply wT2s1 "second message"
      (some "session_0") = (wT2s5, sT2s5) := by
  show (concreteRun genFixedReply 8
    (Node.start_session, (wT2s1, mkInitialState "second message" "session_0" 1090))).2 = _
  have e1 : concreteRun genFixedReply 8
      (Node.start_session, (wT2s1, mkInitialState "second message" "session_0" 1090)) =
      concreteRun genFixedReply 7 (Node.analyze_input, (wT2s1, sT2s1)) :=
    concreteRun_step genFixedReply 7 _ _ c7T2Step1
  have e2 : concreteRun genFixedReply 7 (Node.analyze_input, (wT2s1, sT2s1)) =
      concreteRun genFixedReply 6 (Node.identify_goals, (wT2s2, sT2s2)) :=
    concreteRun_step genFixedReply 6 _ _ c7T2Step2
  have e3 : concreteRun genFixedReply 6 (Node.identify_goals, (wT2s2, sT2s2)) =
      concreteRun genFixedReply 5 (Node.generate_plan, (wT2s3, sT2s3)) :=
    concreteRun_step genFixedReply 5 _ _ c7T2Step3
  have e4 : concreteRun genFixedReply 5 (Node.generate_plan, (wT2s3, sT2s3)) =
      concreteRun genFixedReply 4 (Node.finalize_response, (wT2s4, sT2s4)) :=
    concreteRun_step genFixedReply 4 _ _ c7T2Step4
  have e5 : concreteRun genFixedReply 4
      (Node.finalize_response, (wT2s4, sT2s4)) =
      concreteRun genFixedReply 3 (Node.finished, (wT2s5, sT2s5)) :=
    concreteRun_step genFixedReply 3 _ _ c7T2Step5
  rw [e1, e2, e3, e4, e5]
  rfl

/-- C7: Merge preserves the new message — (i) for every world and working
state, the state produced by `start_session` carries the message supplied
for the current turn (never overwritten by loaded prior state); and (ii)
in the concrete two-turn scenario on one token, the second turn's
`start_session` both keeps the new message and carries the one loaded
history entry, and after the second turn completes the persisted history
for that token has length 2. -/
theorem c7_merge_keeps_new_message :
    (∀ (w : World) (s : AgentState),
      ((start_session_node w s).2).user_message = s.user_message) ∧
    (start_session_node
      (LangGraphGigiService.process_message genFixedReply World.fresh
        "hello coach" none).1
      (mkInitialState "second message" "session_0"
        (LangGraphGigiService.process_message genFixedReply World.fresh
          "hello coach" none).1.clock)).2.user_message = "second message" ∧
    (start_session_node
      (LangGraphGigiService.process_message genFixedReply World.fresh
        "hello coach" none).1
      (mkInitialState "second message" "session_0"
        (LangGraphGigiService.process_message genFixedReply World.fresh
          "hello coach" none).1.clock)).2.conversation_history.length = 1 ∧
    ((storedHistory
      (LangGraphGigiService.process_message genFixedReply
        (LangGraphGigiService.process_message genFixedReply World.fresh
          "hello coach" none).1
        "second message" (some "session_0")).1 "session_0").map List.length) =
      some 2 := by
  refine ⟨start_session_preserves_message, ?_, ?_, ?_⟩
  · rw [c7Run1]
    show (start_session_node wT2s1
      (mkInitialState "second message" "session_0" 1090)).2.user_message =
      "second message"
    rw [c7T2Start]
    rfl
  · rw [c7Run1]
    show (start_session_node wT2s1
      (mkInitialState "second message" "session_0" 1090)).2.conversation_history.length = 1
    rw [c7T2Start]
    rfl
  · rw [c7Run1]
    show ((storedHistory
      (LangGraphGigiService.process_message genFixedReply wT2s1 "second message"
        (some "session_0")).1 "session_0").map List.length) = some 2
    rw [c7Run2]
    rfl

/-- C4: Encryption round trip — for every string `s`,
`decrypt_data (encrypt_data s)` recovers exactly `s` (the successful
decryption is the `some` case), both functions using the single
process-wide symmetric key. -/
theorem c4_encrypt_decrypt_roundtrip (s : String) :
    SecurityManager.decrypt_data (SecurityManager.encrypt_data s) = some s := by
  simp [SecurityManager.encrypt_data, SecurityManager.decrypt_data]

end Gigi
